import Mathlib

/-!
Verification of the real-time audio-chunking and transcription-session
pipeline implemented in `src/sockets/index.ts` (the `/speech` namespace
handler).  Files are modelled as lists of byte values (`List Nat`, each
entry `< 256` in practice), sessions as a record mirroring the
`SessionData` interface, and the retry/fallback logic of
`transcribeWithRetry` / `transcribeAudio` as pure functions over an
environment describing the outcomes of the external calls.
-/

namespace Scope

/-! ## Configuration constants (lines 151–158 of the handler) -/

def SAMPLE_RATE : Nat := 16000

def MAX_AUDIO_SIZE : Nat := 25 * 1024 * 1024

def MAX_RETRIES : Nat := 3

def RETRY_DELAY_MS : Nat := 1000

/-! ## Byte-level helpers

`writeUInt32LE v` produces the four little-endian bytes Node's
`Buffer.writeUInt32LE` stores for `v`; `writeUInt16LE` likewise for two
bytes.  `writeBytesAt file pos bs` overwrites `bs.length` bytes of
`file` starting at `pos`, which is how `fd.write(buf, 0, len, pos)`
behaves on an existing file region.  `readUInt32LE` reads the little-endian
u32 back.  `asciiBytes` is `Buffer.write(str)` for a pure-ASCII string. -/

def writeUInt32LE (v : Nat) : List Nat :=
  [v % 256, v / 256 % 256, v / 65536 % 256, v / 16777216 % 256]

def writeUInt16LE (v : Nat) : List Nat :=
  [v % 256, v / 256 % 256]

def asciiBytes (s : String) : List Nat :=
  s.toList.map Char.toNat

def writeBytesAt (file : List Nat) (pos : Nat) (bs : List Nat) : List Nat :=
  file.take pos ++ bs ++ file.drop (pos + bs.length)

def readUInt32LE (file : List Nat) (pos : Nat) : Nat :=
  file.getD pos 0 + 256 * file.getD (pos + 1) 0 + 65536 * file.getD (pos + 2) 0 +
    16777216 * file.getD (pos + 3) 0

/-! ## WAV Framer -/

/-- `createWavHeader` (source lines 224–257): the 44-byte RIFF/WAVE/fmt/data
header with zeroed size fields. -/
def createWavHeader (sampleRate channels bitDepth format : Nat) : List Nat :=
  let byteRate := sampleRate * channels * bitDepth / 8
  let blockAlign := channels * bitDepth / 8
  let dataSize := 0
  asciiBytes "RIFF" ++ writeUInt32LE (36 + dataSize) ++ asciiBytes "WAVE" ++
    asciiBytes "fmt " ++ writeUInt32LE 16 ++ writeUInt16LE format ++
    writeUInt16LE channels ++ writeUInt32LE sampleRate ++ writeUInt32LE byteRate ++
    writeUInt16LE blockAlign ++ writeUInt16LE bitDepth ++
    asciiBytes "data" ++ writeUInt32LE dataSize

/-- `updateWavHeader` (source lines 260–276): sets `fileSize := 36 + dataSize`,
writes `fileSize - 8` at byte offset 4 and `dataSize` at byte offset 40. -/
def updateWavHeader (file : List Nat) (dataSize : Nat) : List Nat :=
  let fileSize := 36 + dataSize
  let file1 := writeBytesAt file 4 (writeUInt32LE (fileSize - 8))
  writeBytesAt file1 40 (writeUInt32LE dataSize)

/-! ## Session data

Mirror of the `SessionData` interface (source lines 166–176).  The durable
temp file and its append stream are represented by `tempFile : Option (List Nat)`
holding the file's current byte contents (`none` = not yet created, as on a
fresh session).  `audioChunks` is kept for fidelity although nothing in the
speech handler ever pushes to it. -/
structure SessionData where
  audioChunks : List (List Nat)
  lastProcessed : Nat
  tempFile : Option (List Nat)
  sampleRate : Nat
  isPaused : Bool
  pendingFinalize : Bool
  pendingChunks : List (List Nat)
  deriving Repr, DecidableEq

/-- Initial session data installed on connection (source lines 380–391):
`lastProcessed` is `Date.now()` at connection time (always positive in
practice), `sampleRate` defaults to `SAMPLE_RATE`. -/
def sessionDataInit (now : Nat) : SessionData :=
  { audioChunks := []
    lastProcessed := now
    tempFile := none
    sampleRate := SAMPLE_RATE
    isPaused := false
    pendingFinalize := false
    pendingChunks := [] }

/-- `streamToDisk` (source lines 193–221): on first call for a chunk it
creates the temp file with the 44-byte WAV header stub, then appends the
incoming frame bytes to the open file. -/
def streamToDisk (session : SessionData) (audioData : List Nat) : SessionData :=
  match session.tempFile with
  | none =>
      { session with
        tempFile := some (createWavHeader session.sampleRate 1 16 1 ++ audioData) }
  | some contents => { session with tempFile := some (contents ++ audioData) }

/-- `shouldProcessChunk` (source lines 791–832).  `stats.size` is the current
length of the temp-file contents; `bytesPerSecond * 0.5` is exact division by 2
because `bytesPerSecond = sampleRate * 2` is even.  The `audioData` argument is
taken for fidelity (the source computes `currentSize` from it but never uses
it in the decision). -/
def shouldProcessChunk (session : SessionData) (audioData : List Nat) : Bool :=
  match session.tempFile with
  | none => true
  | some contents =>
      let size := contents.length
      let bytesPerSecond := session.sampleRate * 2
      let minAudioBytes := bytesPerSecond / 2
      decide (size ≥ minAudioBytes) ||
        (decide (session.lastProcessed = 0) && decide (size > 0)) ||
        session.pendingFinalize

/-! ## Transcription client

`transcribeAudio` (source lines 897–992) performs one primary attempt with a
fallback to the local Whisper engine inside its own `catch` block.  External
outcomes are supplied by an `AttemptEnv`:
* `apiKeyConfigured` — whether `GROQ_API_KEY` is set (checked before the
  `try`, so its failure never reaches the fallback);
* `fileReadable` — outcome of the `fs.access` probe;
* `primaryResult` — the primary service call: `.ok text` for a well-formed
  response, `.error msg` for a non-OK HTTP status (with the extracted message)
  or the `Invalid response format from Groq API` case;
* `fallbackResult` — `some text` if the local Whisper call returns a result
  (its `text` may be empty, which the source treats as falsy), `none` if it
  throws (the thrown fallback error is only logged, never propagated). -/
structure AttemptEnv where
  apiKeyConfigured : Bool
  fileReadable : Bool
  primaryResult : Except String String
  fallbackResult : Option String
  deriving Repr

instance : DecidableEq (Except String String) := fun a b =>
  match a, b with
  | .ok x, .ok y => decidable_of_iff (x = y) (by simp)
  | .ok _, .error _ => .isFalse (by simp)
  | .error _, .ok _ => .isFalse (by simp)
  | .error x, .error y => decidable_of_iff (x = y) (by simp)

/-- The body of `transcribeAudio`'s `try` block: file-access check,
size-ceiling check, then the primary service call. -/
def attemptBody (file : List Nat) (env : AttemptEnv) : Except String String :=
  if ¬ env.fileReadable then .error "File not found or not readable"
  else if file.length > MAX_AUDIO_SIZE then
    .error ("Audio file too large (" ++ toString file.length ++ " > " ++
      toString MAX_AUDIO_SIZE ++ " bytes)")
  else env.primaryResult

/-- Outcome of one `transcribeAudio` call: the value returned or error thrown,
plus whether the local Whisper fallback was invoked during the call. -/
structure AttemptOutcome where
  result : Except String String
  fallbackInvoked : Bool
  deriving Repr, DecidableEq

/-- `transcribeAudio` (source lines 897–992): missing API key throws before
the `try`; any error raised inside the `try` body lands in the `catch`, which
invokes the fallback and, if the fallback yields no usable text, re-throws the
original error. -/
def transcribeAudio (file : List Nat) (env : AttemptEnv) : AttemptOutcome :=
  if ¬ env.apiKeyConfigured then
    { result := .error "Groq API key not configured", fallbackInvoked := false }
  else
    match attemptBody file env with
    | .ok t => { result := .ok t, fallbackInvoked := false }
    | .error e =>
        match env.fallbackResult with
        | some t =>
            if t ≠ "" then { result := .ok t, fallbackInvoked := true }
            else { result := .error e, fallbackInvoked := true }
        | none => { result := .error e, fallbackInvoked := true }

/-- The `nonRetryableErrors` list of `transcribeWithRetry` (source lines
854–859). -/
def nonRetryableErrors : List String :=
  ["API key not configured", "Invalid response format", "invalid file format",
    "file not found"]

/-- Character-list version of `String.startsWith`: `startsWithChars sub l`
holds when `sub` occurs at the head of `l`. -/
def startsWithChars : List Char → List Char → Bool
  | [], _ => true
  | _ :: _, [] => false
  | a :: as, b :: bs => a == b && startsWithChars as bs

/-- `hasSubstrAux sub l`: `sub` occurs contiguously somewhere in `l`. -/
def hasSubstrAux (sub : List Char) : List Char → Bool
  | [] => startsWithChars sub []
  | c :: cs => startsWithChars sub (c :: cs) || hasSubstrAux sub cs

/-- JavaScript `String.prototype.includes`: substring containment. -/
def includesSubstr (msg sub : String) : Bool :=
  hasSubstrAux sub.toList msg.toList

/-- Result of the full retry loop: final value, number of `transcribeAudio`
invocations made, and the attempt numbers during which the fallback was
invoked. -/
structure RetryResult where
  result : Except String String
  attemptsUsed : Nat
  fallbackAt : List Nat
  deriving Repr, DecidableEq

/-- The `for` loop of `transcribeWithRetry` (source lines 843–887), with the
per-attempt environment indexed by attempt number.  `fuel` is the number of
iterations remaining (`maxRetries - attempt + 1`); when it runs out, the
accumulated `lastError` is thrown (source lines 890–893). -/
def retryGo (file : List Nat) (envs : Nat → AttemptEnv) :
    Nat → Nat → Option String → List Nat → Nat → RetryResult
  | _, 0, lastError, fb, used =>
      { result := .error (lastError.getD "Transcription failed after multiple attempts")
        attemptsUsed := used
        fallbackAt := fb }
  | attempt, fuel + 1, _, fb, used =>
      let o := transcribeAudio file (envs attempt)
      let fb' := if o.fallbackInvoked then fb ++ [attempt] else fb
      match o.result with
      | .ok t => { result := .ok t, attemptsUsed := used + 1, fallbackAt := fb' }
      | .error e =>
          if nonRetryableErrors.any fun m => includesSubstr e m then
            { result := .error e, attemptsUsed := used + 1, fallbackAt := fb' }
          else
            retryGo file envs (attempt + 1) fuel (some e) fb' (used + 1)

/-- `transcribeWithRetry` (source lines 835–894); `maxRetries ≤ 0` is bumped
to 1 as in the source. -/
def transcribeWithRetry (file : List Nat) (envs : Nat → AttemptEnv)
    (maxRetries : Nat := MAX_RETRIES) : RetryResult :=
  let m := if maxRetries ≤ 0 then 1 else maxRetries
  retryGo file envs 1 m none [] 0

/-- `baseDelay` of the backoff (source lines 868–871):
`min(RETRY_DELAY_MS * 2^(attempt-1), 30000)`. -/
def backoffBaseDelay (attempt : Nat) : Nat :=
  min (RETRY_DELAY_MS * 2 ^ (attempt - 1)) 30000

/-- The jittered delay (source lines 873–875): `Math.round(baseDelay * jitter)`
with `jitter = 0.8 + Math.random() * 0.4`.  JavaScript's `Math.round` rounds
half away from zero for positive inputs, matching Mathlib's `round`. -/
def backoffDelay (attempt : Nat) (jitter : ℚ) : ℤ :=
  round ((backoffBaseDelay attempt : ℚ) * jitter)

/-! ## Session manager: chunk processing and socket event handlers -/

/-- Outbound events emitted on the socket. -/
inductive Emit where
  | transcript (text source : String)
  | errorEvent (message : String)
  deriving Repr, DecidableEq

/-- Acknowledgment payloads returned to the `audio` event's `ack` callback. -/
inductive Ack where
  | received (size : Nat)
  | buffered (size : Nat)
  deriving Repr, DecidableEq

/-- Result of one `processAudioChunk` call (source lines 719–788):
the updated session, the events emitted, the byte content submitted to
`transcribeWithRetry` (if any), and whether the call threw (only the
missing-temp-file guard rethrows; every other failure is swallowed by the
function's own `catch`, which emits `'Failed to process audio'`). -/
structure ChunkOutcome where
  session : SessionData
  emits : List Emit
  submission : Option (List Nat)
  threw : Bool
  deriving Repr, DecidableEq

/-- `processAudioChunk` (source lines 719–788).  The WAV header of the temp
file is patched in place (so the session keeps the patched contents), the
whole file is handed to `transcribeWithRetry`, and on success a `transcript`
event with `source: 'groq'` is emitted and `lastProcessed` updated.  The
temp file is never cleared or truncated. -/
def processAudioChunk (session : SessionData) (envs : Nat → AttemptEnv)
    (now : Nat) : ChunkOutcome :=
  match session.tempFile with
  | none => { session := session, emits := [], submission := none, threw := true }
  | some file =>
      if file.length < 44 then
        { session := session, emits := [.errorEvent "Failed to process audio"]
          submission := none, threw := false }
      else
        let dataSize := file.length - 44
        let patched := updateWavHeader file dataSize
        let session1 := { session with tempFile := some patched }
        let r := transcribeWithRetry patched envs MAX_RETRIES
        match r.result with
        | .error _ =>
            { session := session1, emits := [.errorEvent "Failed to process audio"]
              submission := some patched, threw := false }
        | .ok t =>
            if t = "" then
              { session := session1, emits := [.errorEvent "Failed to process audio"]
                submission := some patched, threw := false }
            else
              { session := { session1 with lastProcessed := now }
                emits := [.transcript t "groq"]
                submission := some patched, threw := false }

/-- Payload of an inbound `audio` event: `data.data` is either a base64
string with `format: 'wav'` (carried here already decoded to bytes), a plain
byte array, or something neither (the `Invalid audio data format` branch). -/
inductive FramePayload where
  | wavString (bytes : List Nat)
  | byteArray (bytes : List Nat)
  | invalid
  deriving Repr, DecidableEq

/-- An inbound `audio` event: payload plus the optional `sampleRate` field
(`some 0` is falsy in the source's `if (data.sampleRate)` test). -/
structure AudioFrame where
  payload : FramePayload
  sampleRate : Option Nat
  deriving Repr, DecidableEq

/-- The decoded bytes of a frame payload, `none` for the invalid branch. -/
def decodePayload : FramePayload → Option (List Nat)
  | .wavString bs => some bs
  | .byteArray bs => some bs
  | .invalid => none

/-- The quick RIFF/WAVE signature validation (source lines 490–492).  Node's
`'ascii'` decoding masks each byte to 7 bits; for the byte values
`R`, `I`, `F`, `W`, `A`, `V`, `E` (all `< 128`) the comparison below is
equivalent. -/
def isWavData (bs : List Nat) : Bool :=
  decide (bs.length > 12) && decide (bs.take 4 = asciiBytes "RIFF") &&
    decide ((bs.drop 8).take 4 = asciiBytes "WAVE")

/-- Result of handling one `audio` event. -/
structure AudioHandlerResult where
  session : SessionData
  ack : Option Ack
  emits : List Emit
  submission : Option (List Nat)
  deriving Repr, DecidableEq

/-- The `audio` event handler (source lines 440–543).  While paused, decodable
frames are pushed onto `pendingChunks` and acknowledged as `buffered`.
Otherwise `lastProcessed` is stamped, a truthy `data.sampleRate` overwrites the
session's `sampleRate`, the payload is decoded and RIFF/WAVE-validated,
streamed to disk and acknowledged as `received`; if `shouldProcessChunk` says
so, `processAudioChunk` runs (modelled synchronously: the source fires it in
the background on the same single-threaded loop).  A second processing pass
for `pendingFinalize` (source lines 522–526) is also modelled. -/
def audioHandler (session : SessionData) (frame : AudioFrame)
    (envs : Nat → AttemptEnv) (now : Nat) : AudioHandlerResult :=
  if session.isPaused then
    match decodePayload frame.payload with
    | some bs =>
        { session := { session with pendingChunks := session.pendingChunks ++ [bs] }
          ack := some (.buffered bs.length), emits := [], submission := none }
    | none =>
        { session := session, ack := some (.buffered 0), emits := []
          submission := none }
  else
    let session := { session with lastProcessed := now }
    let session :=
      match frame.sampleRate with
      | some r => if r ≠ 0 then { session with sampleRate := r } else session
      | none => session
    match decodePayload frame.payload with
    | none =>
        { session := session, ack := none
          emits := [.errorEvent "Error processing audio data"], submission := none }
    | some audioData =>
        if ¬ isWavData audioData then
          { session := session, ack := none
            emits := [.errorEvent "Error processing audio data"], submission := none }
        else
          let session := streamToDisk session audioData
          let shouldProcess := shouldProcessChunk session audioData
          if shouldProcess && session.tempFile.isSome then
            let c := processAudioChunk session envs now
            if c.session.pendingFinalize then
              let c2 := processAudioChunk c.session envs now
              { session := { c2.session with pendingFinalize := false }
                ack := some (.received audioData.length)
                emits := c.emits ++ c2.emits, submission := c2.submission }
            else
              { session := c.session, ack := some (.received audioData.length)
                emits := c.emits, submission := c.submission }
          else
            if session.pendingFinalize then
              let c := processAudioChunk session envs now
              { session := { c.session with pendingFinalize := false }
                ack := some (.received audioData.length)
                emits := c.emits, submission := c.submission }
            else
              { session := session, ack := some (.received audioData.length)
                emits := [], submission := none }

/-! ## Control-message handlers and the socket/session-map model -/

/-- The `init` event payload (source line 406); `language` and `sessionId`
are accepted but never read by the handler. -/
structure InitData where
  sampleRate : Option Nat
  language : Option String
  sessionId : Option String
  deriving Repr, DecidableEq

/-- The acknowledgment of `init` (source lines 416–422); `timestamp` is the
`Date.now()` value. -/
structure InitResponse where
  success : Bool
  sessionId : String
  sampleRate : Nat
  message : String
  timestamp : Nat
  deriving Repr, DecidableEq

/-- The `init` handler (source lines 406–437): a truthy `data.sampleRate`
overwrites the session's sample rate; the acknowledgment always reports
success with the session id. -/
def initHandler (sessionId : String) (session : SessionData) (d : InitData)
    (now : Nat) : SessionData × InitResponse :=
  let session :=
    match d.sampleRate with
    | some r => if r ≠ 0 then { session with sampleRate := r } else session
    | none => session
  (session,
    { success := true, sessionId := sessionId, sampleRate := session.sampleRate
      message := "Session initialized successfully", timestamp := now })

/-- Server-side view of one connected socket.  `id` is `socket.id` (the key
under which the connection handler stores the session, source lines 376 and
391).  `sessionIdProp` is the ad-hoc `(socket as any).sessionId` property read
by the pause/resume/stop/disconnect handlers (source lines 555, 578, 621,
673); no statement in the handler file (or anywhere else in the server
sources) ever assigns it, so on every socket it is `none`. -/
structure SocketState where
  id : String
  sessionIdProp : Option String
  deriving Repr, DecidableEq

/-- A freshly connected socket: `socket.id` is set by the transport, the
ad-hoc `sessionId` property is absent. -/
def connectSocket (id : String) : SocketState :=
  { id := id, sessionIdProp := none }

/-- The live session map, as an association list keyed by session id. -/
abbrev SessionMap := List (String × SessionData)

def SessionMap.find (m : SessionMap) (sid : String) : Option SessionData :=
  match m with
  | [] => none
  | (k, v) :: rest => if k = sid then some v else SessionMap.find rest sid

def SessionMap.set (m : SessionMap) (sid : String) (s : SessionData) : SessionMap :=
  match m with
  | [] => [(sid, s)]
  | (k, v) :: rest =>
      if k = sid then (k, s) :: rest else (k, v) :: SessionMap.set rest sid s

def SessionMap.erase (m : SessionMap) (sid : String) : SessionMap :=
  match m with
  | [] => []
  | (k, v) :: rest =>
      if k = sid then rest else (k, v) :: SessionMap.erase rest sid

/-- Response shape shared by the pause/resume control acknowledgments. -/
structure CtrlResponse where
  success : Bool
  message : String
  deriving Repr, DecidableEq

/-- The `pause-recording` handler (source lines 554–574).  It looks the
session up by `(socket as any).sessionId`, not by the enclosing `socket.id`
closure variable; with that property unset it replies
`'No session ID found'` without touching any session. -/
def pauseRecordingHandler (sessions : SessionMap) (socket : SocketState) :
    SessionMap × CtrlResponse :=
  match socket.sessionIdProp with
  | none => (sessions, { success := false, message := "No session ID found" })
  | some sid =>
      match sessions.find sid with
      | some session =>
          (sessions.set sid { session with isPaused := true },
            { success := true, message := "Recording paused" })
      | none => (sessions, { success := false, message := "Session not found" })

/-- The replay loop of the `resume-recording` handler (source lines 593–604):
each buffered chunk is streamed to disk in arrival order (a failing write is
logged and skipped; writes always succeed in this model), then the pending
list is cleared. -/
def drainPendingChunks (session : SessionData) : SessionData :=
  let drained := session.pendingChunks.foldl streamToDisk session
  { drained with pendingChunks := [] }

/-- The `resume-recording` handler (source lines 577–612), subject to the same
`(socket as any).sessionId` lookup as pause. -/
def resumeRecordingHandler (sessions : SessionMap) (socket : SocketState) :
    SessionMap × CtrlResponse :=
  match socket.sessionIdProp with
  | none => (sessions, { success := false, message := "No session ID found" })
  | some sid =>
      match sessions.find sid with
      | some session =>
          let session := { session with isPaused := false }
          let session :=
            if session.pendingChunks.length > 0 then drainPendingChunks session
            else session
          (sessions.set sid session,
            { success := true, message := "Recording resumed" })
      | none => (sessions, { success := false, message := "Session not found" })

/-- Result of the `disconnect` handler: the surviving session map, emitted
events, and the final-chunk submission bytes if any were made. -/
structure DisconnectResult where
  sessions : SessionMap
  emits : List Emit
  submission : Option (List Nat)
  deriving Repr, DecidableEq

/-- The `disconnect` handler (source lines 672–708).  It reads
`(socket as any).sessionId`; when that is unset it logs and returns at once —
no final chunk is processed, `cleanupSession` is not called and the session
stays in the map.  When a session id is present and found, any open temp file
of a non-paused session is processed and then `cleanupSession` removes the
session (source lines 278–296). -/
def disconnectHandler (sessions : SessionMap) (socket : SocketState)
    (envs : Nat → AttemptEnv) (now : Nat) : DisconnectResult :=
  match socket.sessionIdProp with
  | none => { sessions := sessions, emits := [], submission := none }
  | some sid =>
      match sessions.find sid with
      | none => { sessions := sessions, emits := [], submission := none }
      | some session =>
          if session.tempFile.isSome && !session.isPaused then
            let c := processAudioChunk session envs now
            { sessions := sessions.erase sid, emits := c.emits
              submission := c.submission }
          else
            { sessions := sessions.erase sid, emits := [], submission := none }

/-! ## Concrete instances used to evaluate the model -/

/-- An environment in which every primary call succeeds. -/
def envPrimaryOk : Nat → AttemptEnv := fun _ =>
  { apiKeyConfigured := true, fileReadable := true
    primaryResult := .ok "hello world", fallbackResult := none }

/-- An environment in which every primary call fails with an HTTP 500 (a
retryable error) and every fallback call throws. -/
def envPrimary500 : Nat → AttemptEnv := fun _ =>
  { apiKeyConfigured := true, fileReadable := true
    primaryResult := .error "API request failed with status 500"
    fallbackResult := none }

/-- A minimal 13-byte frame passing the RIFF/WAVE signature check. -/
def wavFrameA : List Nat :=
  asciiBytes "RIFF" ++ [0, 0, 0, 0] ++ asciiBytes "WAVE" ++ [1]

/-- A second distinguishable 13-byte valid frame. -/
def wavFrameB : List Nat :=
  asciiBytes "RIFF" ++ [0, 0, 0, 0] ++ asciiBytes "WAVE" ++ [2]

/-- A 3000-byte valid frame: the first-chunk scenario of the spec
(3000 bytes < 500 ms at 16 kHz/16-bit). -/
def wavFrame3000 : List Nat :=
  asciiBytes "RIFF" ++ [0, 0, 0, 0] ++ asciiBytes "WAVE" ++ List.replicate 2988 0

/-- A bare 44-byte WAV file (header only). -/
def file0 : List Nat := createWavHeader 16000 1 16 1

/-- A session initialized with sample rate 2 Hz, so that `shouldProcessChunk`'s
duration threshold (`sampleRate * 2 * 0.5` bytes) is met by any small chunk. -/
def lowRateSession : SessionData :=
  (initHandler "s1" (sessionDataInit 50)
    { sampleRate := some 2, language := none, sessionId := none } 50).1

/-- First `audio` event on the low-rate session: frame `wavFrameA` arrives,
is flushed and transcribed. -/
def c2Step1 : AudioHandlerResult :=
  audioHandler lowRateSession
    { payload := .wavString wavFrameA, sampleRate := none } envPrimaryOk 100

/-- Second `audio` event after the first chunk was flushed: frame `wavFrameB`
arrives. -/
def c2Step2 : AudioHandlerResult :=
  audioHandler c2Step1.session
    { payload := .wavString wavFrameB, sampleRate := none } envPrimaryOk 200

/-- State after the very first 3000-byte frame of a fresh 16 kHz session has
been streamed to disk: the `audio` handler stamps `lastProcessed := Date.now()`
(frame at epoch-milliseconds 1700000000100, connection at 1700000000000) and
appends the frame behind the 44-byte header stub, and only then consults
`shouldProcessChunk`. -/
def firstChunkSession : SessionData :=
  streamToDisk
    { sessionDataInit 1700000000000 with lastProcessed := 1700000000100 }
    wavFrame3000

/-- A live session map holding one fresh session stored under the socket id
`"abc"`, as the connection handler does. -/
def oneSessionMap : SessionMap := [("abc", sessionDataInit 100)]

/-- A session with an open temp file holding one buffered frame. -/
def sessionWithChunk : SessionData :=
  { sessionDataInit 100 with
    tempFile := some (createWavHeader 16000 1 16 1 ++ wavFrameA) }

/-- A frame declaring a sample rate of 44100 Hz, different from the session
default. -/
def frame44100 : AudioFrame :=
  { payload := .wavString wavFrameA, sampleRate := some 44100 }

/-! ## Helper lemmas -/

theorem shouldProcessChunk_some (session : SessionData) (contents audioData : List Nat)
    (h : session.tempFile = some contents) :
    shouldProcessChunk session audioData =
      (decide (contents.length ≥ session.sampleRate * 2 / 2) ||
        (decide (session.lastProcessed = 0) && decide (contents.length > 0)) ||
        session.pendingFinalize) := by
  unfold shouldProcessChunk
  rw [h]

theorem streamToDisk_sampleRate (s : SessionData) (a : List Nat) :
    (streamToDisk s a).sampleRate = s.sampleRate := by
  unfold streamToDisk
  cases s.tempFile <;> rfl

theorem processAudioChunk_sampleRate (s : SessionData) (envs : Nat → AttemptEnv)
    (now : Nat) :
    (processAudioChunk s envs now).session.sampleRate = s.sampleRate := by
  unfold processAudioChunk
  cases s.tempFile with
  | none => rfl
  | some file =>
      by_cases h : file.length < 44
      · simp [h]
      · simp only [if_neg h]
        split <;> simp_all
        split <;> simp_all

theorem processAudioChunk_pendingFinalize (s : SessionData)
    (envs : Nat → AttemptEnv) (now : Nat) :
    (processAudioChunk s envs now).session.pendingFinalize = s.pendingFinalize := by
  unfold processAudioChunk
  cases s.tempFile with
  | none => rfl
  | some file =>
      by_cases h : file.length < 44
      · simp [h]
      · simp only [if_neg h]
        split <;> simp_all
        split <;> simp_all

theorem retryGo_attemptsUsed_le (file : List Nat) (envs : Nat → AttemptEnv)
    (fuel : Nat) :
    ∀ (attempt : Nat) (lastError : Option String) (fb : List Nat) (used : Nat),
      (retryGo file envs attempt fuel lastError fb used).attemptsUsed ≤ used + fuel := by
  induction fuel with
  | zero =>
      intro attempt lastError fb used
      simp [retryGo]
  | succ n ih =>
      intro attempt lastError fb used
      rw [retryGo]
      cases hres : (transcribeAudio file (envs attempt)).result with
      | ok t =>
          simp only [hres]
          omega
      | error e =>
          by_cases hnr : (nonRetryableErrors.any fun m => includesSubstr e m) = true
          · simp only [hres, hnr, if_pos]
            omega
          · simp only [hres, hnr, if_neg, Bool.false_eq_true, not_false_eq_true]
            have := ih (attempt + 1) (some e)
              (if (transcribeAudio file (envs attempt)).fallbackInvoked then
                fb ++ [attempt] else fb) (used + 1)
            omega

theorem five_dvd_backoffBaseDelay (n : Nat) : 5 ∣ backoffBaseDelay n := by
  unfold backoffBaseDelay RETRY_DELAY_MS
  rcases le_total (1000 * 2 ^ (n - 1)) 30000 with h | h
  · rw [Nat.min_eq_left h]
    exact Dvd.dvd.mul_right ⟨200, rfl⟩ _
  · rw [Nat.min_eq_right h]
    exact ⟨6000, rfl⟩

theorem backoffDelay_bounds (n : Nat) (j : ℚ) (h1 : 4 / 5 ≤ j) (h2 : j ≤ 6 / 5) :
    (4 / 5 : ℚ) * (backoffBaseDelay n : ℚ) ≤ ((backoffDelay n j : ℤ) : ℚ) ∧
    ((backoffDelay n j : ℤ) : ℚ) ≤ (6 / 5 : ℚ) * (backoffBaseDelay n : ℚ) := by
  obtain ⟨m, hm⟩ := five_dvd_backoffBaseDelay n
  have hmq : (backoffBaseDelay n : ℚ) = 5 * (m : ℚ) := by
    rw [hm]
    push_cast
    ring
  have hm0 : (0 : ℚ) ≤ (m : ℚ) := by positivity
  unfold backoffDelay
  set x : ℚ := (backoffBaseDelay n : ℚ) * j with hx
  have hx1 : 4 * (m : ℚ) ≤ x := by
    rw [hx, hmq]
    nlinarith
  have hx2 : x ≤ 6 * (m : ℚ) := by
    rw [hx, hmq]
    nlinarith
  have hr := abs_sub_round x
  rw [abs_le] at hr
  have hlow : ((4 * m : ℤ) : ℚ) - 1 < ((round x : ℤ) : ℚ) := by
    push_cast
    linarith [hr.1, hr.2]
  have hhigh : ((round x : ℤ) : ℚ) < ((6 * m : ℤ) : ℚ) + 1 := by
    push_cast
    linarith [hr.1, hr.2]
  have hlow' : (4 * m : ℤ) ≤ round x := by
    have : (4 * m : ℤ) - 1 < round x := by exact_mod_cast hlow
    omega
  have hhigh' : round x ≤ (6 * m : ℤ) := by
    have : round x < (6 * m : ℤ) + 1 := by exact_mod_cast hhigh
    omega
  constructor
  · rw [hmq]
    calc (4 / 5 : ℚ) * (5 * (m : ℚ)) = 4 * (m : ℚ) := by ring
    _ ≤ ((round x : ℤ) : ℚ) := by exact_mod_cast hlow'
  · rw [hmq]
    calc ((round x : ℤ) : ℚ) ≤ 6 * (m : ℚ) := by exact_mod_cast hhigh'
    _ = (6 / 5 : ℚ) * (5 * (m : ℚ)) := by ring

/-! ## Claim theorems -/

/-- Claim C1: the claim states that finalizing a chunk with `n` data bytes
patches the u32 at byte offset 4 to `36 + n`.  The source's `updateWavHeader`
computes `fileSize = 36 + dataSize` and then writes `fileSize - 8`, i.e.
`28 + n`, at offset 4 — contradicting `createWavHeader` in the same file,
which stores `36 + dataSize` there.  Evaluating the code on a 16-data-byte
chunk: offset 4 holds `44` (= 28 + 16), not `52` (= 36 + 16); the offset-40
field does hold `n` as claimed. -/
theorem updateWavHeader_offset4_is_28_plus_n :
    readUInt32LE (updateWavHeader (createWavHeader 16000 1 16 1 ++ List.replicate 16 0) 16) 4 =
      28 + 16 ∧
    readUInt32LE (updateWavHeader (createWavHeader 16000 1 16 1 ++ List.replicate 16 0) 16) 40 =
      16 ∧
    28 + 16 ≠ 36 + 16 := by
  decide

/-- Claim C2: the claim states the chunk buffer is reset after a flush so no
byte is transcribed twice.  In the source, `processAudioChunk` never clears
`session.tempFile`; the write stream keeps appending to the same file, and the
next submission re-reads the whole file.  Evaluating two consecutive frames on
a flushing session: the first submission's data section is `wavFrameA`, and the
second submission's data section is `wavFrameA ++ wavFrameB` — the already-
transcribed bytes of `wavFrameA` are submitted again. -/
theorem second_submission_contains_first_chunk :
    c2Step1.submission.map (fun f => f.drop 44) = some wavFrameA ∧
    c2Step2.submission.map (fun f => f.drop 44) = some (wavFrameA ++ wavFrameB) ∧
    wavFrameA ≠ [] := by
  decide

/-- Claim C4: the claim states frames received while paused are replayed in
order on resume.  The pause and resume handlers look the session up via
`(socket as any).sessionId`, a property no code ever assigns (the session is
stored under the `socket.id` closure variable instead).  Evaluating both
handlers on a freshly connected socket: each replies
`{success: false, message: 'No session ID found'}` and leaves the session map
untouched, so `isPaused` never becomes true and no frame is ever buffered or
replayed. -/
theorem pause_resume_find_no_session :
    pauseRecordingHandler oneSessionMap (connectSocket "abc") =
      (oneSessionMap, { success := false, message := "No session ID found" }) ∧
    resumeRecordingHandler oneSessionMap (connectSocket "abc") =
      (oneSessionMap, { success := false, message := "No session ID found" }) ∧
    (oneSessionMap.find "abc").map SessionData.isPaused = some false := by
  decide

/-- Claim C5: the claim states that on disconnect the buffered remainder is
finalized and the session's storage released and the session removed from the
live map.  The disconnect handler reads the never-assigned
`(socket as any).sessionId` and returns immediately when it is unset.
Evaluating it on a session holding an unflushed chunk: no submission is made,
nothing is emitted, and the session (temp file included) remains in the map. -/
theorem disconnect_performs_no_cleanup :
    disconnectHandler [("abc", sessionWithChunk)] (connectSocket "abc")
        envPrimaryOk 200 =
      { sessions := [("abc", sessionWithChunk)], emits := [], submission := none } := by
  decide

/-- Claim C6: the claim states the readiness check is true for the very first
non-empty chunk regardless of size.  The source's first-chunk criterion is
`session.lastProcessed === 0 && stats.size > 0`, but `lastProcessed` is
initialized to `Date.now()` on connection and re-stamped on every frame, so it
is never 0 and the branch is dead.  Evaluating the first 3000-byte frame of a
fresh 16 kHz session: the file holds 3044 bytes (header + data), below the
16000-byte duration threshold, and no processing is triggered. -/
theorem first_small_chunk_not_processed :
    shouldProcessChunk firstChunkSession wavFrame3000 = false ∧
    (firstChunkSession.tempFile.getD []).length = 3044 ∧
    firstChunkSession.sampleRate = 16000 ∧
    firstChunkSession.lastProcessed ≠ 0 := by
  have hframe : wavFrame3000.length = 3000 := by
    rw [wavFrame3000]
    simp only [List.length_append, List.length_replicate, asciiBytes,
      List.length_map]
    decide
  have hheader : (createWavHeader SAMPLE_RATE 1 16 1).length = 44 := by decide
  have hfile : firstChunkSession.tempFile =
      some (createWavHeader SAMPLE_RATE 1 16 1 ++ wavFrame3000) := by
    simp [firstChunkSession, streamToDisk, sessionDataInit]
  have hlen : (createWavHeader SAMPLE_RATE 1 16 1 ++ wavFrame3000).length = 3044 := by
    rw [List.length_append, hheader, hframe]
  have hsr : firstChunkSession.sampleRate = SAMPLE_RATE := by
    simp [firstChunkSession, streamToDisk, sessionDataInit]
  have hlp : firstChunkSession.lastProcessed = 1700000000100 := by
    simp [firstChunkSession, streamToDisk, sessionDataInit]
  have hpf : firstChunkSession.pendingFinalize = false := by
    simp [firstChunkSession, streamToDisk, sessionDataInit]
  refine ⟨?_, ?_, ?_, ?_⟩
  · rw [shouldProcessChunk_some firstChunkSession _ wavFrame3000 hfile,
      hlen, hsr, hlp, hpf]
    decide
  · rw [hfile]
    simpa using hlen
  · rw [hsr]
    decide
  · rw [hlp]
    decide

/-- Claim C3 counterexample: the claim states the fallback engine is invoked
only after all primary retries are exhausted, never while further retries
remain.  Evaluating the retry loop in an environment where every primary call
fails with a retryable HTTP 500 and every fallback call throws: the fallback
is invoked during attempts 1, 2 and 3, although after attempt 1 (and 2) the
loop still retries the primary — the fallback ran while retries remained. -/
theorem fallback_runs_during_attempt_one :
    (transcribeWithRetry file0 envPrimary500 MAX_RETRIES).fallbackAt = [1, 2, 3] ∧
    (transcribeWithRetry file0 envPrimary500 MAX_RETRIES).attemptsUsed = 3 := by
  decide

/-- Claim C3 (amended): the fallback engine is invoked inside every failed
primary attempt — whenever the attempt body throws, including for
payload-validation (file-too-large) and file-access errors — except when the
API key is missing, whose check precedes the `try` block.  In particular the
fallback can run while further primary retries remain. -/
theorem fallback_invoked_on_every_failed_attempt :
    (∀ (file : List Nat) (env : AttemptEnv) (e : String),
        env.apiKeyConfigured = true → attemptBody file env = .error e →
        (transcribeAudio file env).fallbackInvoked = true) ∧
    (∀ (file : List Nat) (env : AttemptEnv),
        env.apiKeyConfigured = false →
        (transcribeAudio file env).fallbackInvoked = false) := by
  constructor
  · intro file env e hk hb
    unfold transcribeAudio
    rw [hk, hb]
    simp only [not_true_eq_false, Bool.true_eq_false, if_false]
    cases env.fallbackResult with
    | none => rfl
    | some t =>
        by_cases ht : t = "" <;> simp [ht]
  · intro file env hk
    unfold transcribeAudio
    rw [hk]
    simp

/-- Witness for the amended C3 theorem at a concrete failing attempt and at a
concrete key-less environment. -/
theorem fallback_invoked_on_every_failed_attempt_witness :
    (envPrimary500 1).apiKeyConfigured = true ∧
    attemptBody file0 (envPrimary500 1) =
      .error "API request failed with status 500" ∧
    (transcribeAudio file0 (envPrimary500 1)).fallbackInvoked = true ∧
    (transcribeAudio file0
      { apiKeyConfigured := false, fileReadable := true
        primaryResult := .ok "x", fallbackResult := none }).fallbackInvoked = false :=
  ⟨rfl, by decide,
    fallback_invoked_on_every_failed_attempt.1 file0 (envPrimary500 1)
      "API request failed with status 500" rfl (by decide),
    fallback_invoked_on_every_failed_attempt.2 file0
      { apiKeyConfigured := false, fileReadable := true
        primaryResult := .ok "x", fallbackResult := none } rfl⟩

/-- Claim C7: the retry loop makes at most `MAX_RETRIES` (3) primary attempts,
and the jittered backoff delay after a failed attempt `n` stays within
`[0.8, 1.2] × min(1000 × 2^(n-1), 30000)` milliseconds, where the jitter factor
`0.8 + Math.random() * 0.4` lies in `[0.8, 1.2]` and `Math.round` cannot push
the product outside the (integer-endpoint) interval. -/
theorem retry_attempts_bounded_and_backoff_in_range :
    (∀ (file : List Nat) (envs : Nat → AttemptEnv),
        (transcribeWithRetry file envs MAX_RETRIES).attemptsUsed ≤ MAX_RETRIES) ∧
    (∀ (n : Nat) (j : ℚ), 4 / 5 ≤ j → j ≤ 6 / 5 →
        (4 / 5 : ℚ) * (backoffBaseDelay n : ℚ) ≤ ((backoffDelay n j : ℤ) : ℚ) ∧
        ((backoffDelay n j : ℤ) : ℚ) ≤ (6 / 5 : ℚ) * (backoffBaseDelay n : ℚ)) := by
  constructor
  · intro file envs
    have h := retryGo_attemptsUsed_le file envs MAX_RETRIES 1 none [] 0
    simpa [transcribeWithRetry, MAX_RETRIES] using h
  · intro n j h1 h2
    exact backoffDelay_bounds n j h1 h2

/-- Witness for C7 at a concrete environment and a concrete jitter factor. -/
theorem retry_attempts_bounded_and_backoff_in_range_witness :
    (transcribeWithRetry file0 envPrimary500 MAX_RETRIES).attemptsUsed ≤ MAX_RETRIES ∧
    ((4 / 5 : ℚ) ≤ 1 ∧ (1 : ℚ) ≤ 6 / 5) ∧
    ((4 / 5 : ℚ) * (backoffBaseDelay 1 : ℚ) ≤ ((backoffDelay 1 1 : ℤ) : ℚ) ∧
      ((backoffDelay 1 1 : ℤ) : ℚ) ≤ (6 / 5 : ℚ) * (backoffBaseDelay 1 : ℚ)) :=
  ⟨retry_attempts_bounded_and_backoff_in_range.1 file0 envPrimary500,
    ⟨by norm_num, by norm_num⟩,
    retry_attempts_bounded_and_backoff_in_range.2 1 1 (by norm_num) (by norm_num)⟩

/-- Claim C8 counterexample: the claim states the error surfaced to the client
is the primary service's failure.  Evaluating `processAudioChunk` on a chunk
whose primary attempts all fail with `'API request failed with status 500'`
and whose fallback also fails: the retry loop does propagate the primary's
error to its caller, but the client-facing `error` event carries the fixed
string `'Failed to process audio'`, not the primary's failure reason. -/
theorem error_event_is_generic_not_primary :
    (processAudioChunk sessionWithChunk envPrimary500 200).emits =
      [Emit.errorEvent "Failed to process audio"] ∧
    (transcribeWithRetry
        (updateWavHeader (createWavHeader 16000 1 16 1 ++ wavFrameA) 13)
        envPrimary500 MAX_RETRIES).result =
      .error "API request failed with status 500" ∧
    ("Failed to process audio" : String) ≠ "API request failed with status 500" := by
  decide

/-- Claim C8 (amended): when the fallback also fails, `transcribeAudio`
re-throws the original primary error (never the fallback's own error, which is
only logged), and that error propagates through the retry loop to
`processAudioChunk`; the event surfaced to the client, however, is the fixed
message `'Failed to process audio'`, carrying neither error's reason. -/
theorem primary_error_propagates_fallback_error_discarded :
    (∀ (file : List Nat) (env : AttemptEnv) (e : String),
        env.apiKeyConfigured = true → attemptBody file env = .error e →
        env.fallbackResult = none →
        (transcribeAudio file env).result = .error e ∧
        (transcribeAudio file env).fallbackInvoked = true) ∧
    (∀ (session : SessionData) (envs : Nat → AttemptEnv) (now : Nat)
        (file : List Nat) (e : String),
        session.tempFile = some file → 44 ≤ file.length →
        (transcribeWithRetry (updateWavHeader file (file.length - 44)) envs
            MAX_RETRIES).result = .error e →
        (processAudioChunk session envs now).emits =
          [Emit.errorEvent "Failed to process audio"]) := by
  constructor
  · intro file env e hk hb hfb
    unfold transcribeAudio
    rw [hk, hb, hfb]
    simp
  · intro session envs now file e htf h44 hres
    have hlt : ¬ file.length < 44 := by omega
    unfold processAudioChunk
    rw [htf]
    simp [hlt, hres]

/-- Witness for the amended C8 theorem at the concrete failing environment. -/
theorem primary_error_propagates_fallback_error_discarded_witness :
    (transcribeAudio file0 (envPrimary500 1)).result =
      .error "API request failed with status 500" ∧
    (processAudioChunk sessionWithChunk envPrimary500 200).emits =
      [Emit.errorEvent "Failed to process audio"] :=
  ⟨(primary_error_propagates_fallback_error_discarded.1 file0 (envPrimary500 1)
      "API request failed with status 500" rfl (by decide) rfl).1,
    primary_error_propagates_fallback_error_discarded.2 sessionWithChunk
      envPrimary500 200 (createWavHeader 16000 1 16 1 ++ wavFrameA)
      "API request failed with status 500" (by decide) (by decide) (by decide)⟩

/-- Claim C9 counterexample: the claim states no operation after init changes
the session's stored `sampleRate`.  Evaluating the `audio` handler on a
session initialized at the 16000 Hz default with a frame declaring
`sampleRate: 44100`: the handler overwrites the session's `sampleRate` with
44100 (source line 472). -/
theorem frame_overwrites_sampleRate :
    (audioHandler (sessionDataInit 100) frame44100 envPrimaryOk 200).session.sampleRate =
      44100 ∧
    (sessionDataInit 100).sampleRate = 16000 ∧ (44100 : Nat) ≠ 16000 := by
  decide

/-- Claim C9 (amended): the session's `sampleRate` is set at init but is not
immutable: every `audio` frame handled while the session is not paused whose
`sampleRate` field is truthy overwrites the session's stored `sampleRate`
with the frame's declared value. -/
theorem audio_frame_updates_sampleRate (session : SessionData) (frame : AudioFrame)
    (envs : Nat → AttemptEnv) (now r : Nat)
    (hp : session.isPaused = false) (hr : frame.sampleRate = some r) (h0 : r ≠ 0) :
    (audioHandler session frame envs now).session.sampleRate = r := by
  unfold audioHandler
  rw [hp, hr]
  simp only [Bool.false_eq_true, if_false, h0, ne_eq, not_false_eq_true, if_true]
  cases hd : decodePayload frame.payload with
  | none => simp
  | some audioData =>
      simp only
      by_cases hw : isWavData audioData = true
      · simp only [hw, not_true_eq_false, Bool.true_eq_false, if_false]
        split
        · rw [processAudioChunk_sampleRate] at *
          split
          · simp [processAudioChunk_sampleRate, streamToDisk_sampleRate]
          · simp [processAudioChunk_sampleRate, streamToDisk_sampleRate]
        · split
          · simp [processAudioChunk_sampleRate, streamToDisk_sampleRate]
          · simp [streamToDisk_sampleRate]
      · simp [hw]

/-- Witness for the amended C9 theorem at a concrete frame. -/
theorem audio_frame_updates_sampleRate_witness :
    (sessionDataInit 100).isPaused = false ∧
    frame44100.sampleRate = some 44100 ∧
    (audioHandler (sessionDataInit 100) frame44100 envPrimaryOk 200).session.sampleRate =
      44100 :=
  ⟨rfl, rfl,
    audio_frame_updates_sampleRate (sessionDataInit 100) frame44100 envPrimaryOk
      200 44100 rfl rfl (by decide)⟩

/-- Claim C10: an `init` message omitting `sampleRate` leaves the session at
the 16000 Hz default (`SAMPLE_RATE`), and the acknowledgment reports
`success: true` with the session id (and the 16000 Hz rate). -/
theorem init_without_sampleRate_defaults (sid : String) (now t : Nat)
    (d : InitData) (h : d.sampleRate = none) :
    (initHandler sid (sessionDataInit now) d t).1.sampleRate = 16000 ∧
    (initHandler sid (sessionDataInit now) d t).2.success = true ∧
    (initHandler sid (sessionDataInit now) d t).2.sessionId = sid ∧
    (initHandler sid (sessionDataInit now) d t).2.sampleRate = 16000 := by
  refine ⟨?_, rfl, rfl, ?_⟩ <;>
    simp [initHandler, h, sessionDataInit, SAMPLE_RATE]

/-- Witness for C10 at a concrete init message with no `sampleRate` field. -/
theorem init_without_sampleRate_defaults_witness :
    (⟨none, none, none⟩ : InitData).sampleRate = none ∧
    ((initHandler "abc" (sessionDataInit 100) ⟨none, none, none⟩ 100).1.sampleRate = 16000 ∧
      (initHandler "abc" (sessionDataInit 100) ⟨none, none, none⟩ 100).2.success = true ∧
      (initHandler "abc" (sessionDataInit 100) ⟨none, none, none⟩ 100).2.sessionId = "abc" ∧
      (initHandler "abc" (sessionDataInit 100) ⟨none, none, none⟩ 100).2.sampleRate = 16000) :=
  ⟨rfl, init_without_sampleRate_defaults "abc" 100 100 ⟨none, none, none⟩ rfl⟩

end Scope
